import Mathlib

/-
Verification development for the rag_api_app repository.

The repository has two source files:
  src/rag_engine.py : class RAGEngine with load_data and answer_question
  src/app.py        : Flask routes ask_question (/api/ask), chat (/api/chat),
                      reload_data (/api/reload) and the startup block

The embedding below translates the observable control and data flow of those
files.  External collaborators (the llama_index document loader, index
builder and query engine backed by Ollama) are passed in as oracle values:
each call site receives the outcome the external service would produce.
The one definition taken from the spec rather than the source is the
similarity retriever (see retrieve below), because the ranking code lives in
the external library, not in this repository.
-/

namespace RagApp

/-- Metadata dictionary of a retrieved node.  Only the two keys the source
ever touches are modelled; a missing key is None. -/
structure Metadata where
  file_name : Option String
  page_label : Option String
deriving DecidableEq

/-- A retrieved node with score, mirroring llama_index NodeWithScore as the
source consumes it: node.text, node.score, node.node.metadata. -/
structure SourceNode where
  text : String
  score : Int
  metadata : Metadata
deriving DecidableEq

/-- The query-engine response as consumed by answer_question:
response.response (the generated text) and response.source_nodes. -/
structure Response where
  response : String
  source_nodes : List SourceNode
deriving DecidableEq

/-- A loaded document (only its identity matters to the modelled code; the
source merely counts them). -/
structure Document where
  text : String
deriving DecidableEq

/-- The in-memory vector index.  The source treats it as opaque: it is
built by VectorStoreIndex.from_documents and handed to as_query_engine. -/
structure Index where
  documents : List Document
deriving DecidableEq

/-- Engine state: the single mutable field self.index of RAGEngine
(None before any successful build). -/
structure EngineState where
  index : Option Index
deriving DecidableEq

/-- Return value of load_data: the dict with status and document_count
(src/rag_engine.py line 86). -/
structure LoadResult where
  status : String
  document_count : Nat
deriving DecidableEq

/-- One entry of the sources list in the API response
(src/rag_engine.py lines 126-131). -/
structure SourceDoc where
  text : String
  score : Option Int
  file_name : String
  page_label : String
deriving DecidableEq

/-- The dict returned by answer_question (src/rag_engine.py lines 134-139). -/
structure AnswerResult where
  question : String
  answer : String
  raw_answer : String
  sources : List SourceDoc
deriving DecidableEq

/-- Exceptions answer_question can raise: the ValueError at line 92-93 when
the index is absent (NotReadyError in the spec taxonomy), a propagated
failure of the external query/generation call (GenerationError), and the
KeyError from direct metadata indexing at lines 109-115. -/
inductive RagError where
  | notReady
  | generationError
  | keyError
deriving DecidableEq

/-- Excerpt truncation of src/rag_engine.py line 127:
node.text[:200] + ellipsis if len(node.text) > 200 else node.text. -/
def excerpt (t : String) : String :=
  if t.length > 200 then t.take 200 ++ "..." else t

/-- One sources entry (src/rag_engine.py lines 126-131).  node.score is
always present on a NodeWithScore, so the hasattr guard yields some;
missing metadata keys default to Unknown via dict.get. -/
def mkSourceDoc (n : SourceNode) : SourceDoc :=
  { text := excerpt n.text
    score := some n.score
    file_name := n.metadata.file_name.getD ("Unknown")
    page_label := n.metadata.page_label.getD ("Unknown") }

/-- The literal glue string of src/rag_engine.py line 117. -/
def checkFurther : String := "\n\n Check further at "

/-- The citation string built at src/rag_engine.py lines 106-115, called
file_name in the source.  The metadata keys are read by direct indexing,
so a missing key raises KeyError; the reads happen left to right:
file_name of the top node, page_label of the top node, and, when two or
more nodes were retrieved, page_label of the second node. -/
def citation_suffix (n0 : SourceNode) (rest : List SourceNode) : Except RagError String :=
  match rest with
  | n1 :: _ =>
    match n0.metadata.file_name with
    | none => Except.error RagError.keyError
    | some f0 =>
      match n0.metadata.page_label with
      | none => Except.error RagError.keyError
      | some p0 =>
        match n1.metadata.page_label with
        | none => Except.error RagError.keyError
        | some p1 => Except.ok (n0.text ++ f0 ++ "page nos: " ++ p0 ++ ", " ++ p1)
  | [] =>
    match n0.metadata.file_name with
    | none => Except.error RagError.keyError
    | some f0 =>
      match n0.metadata.page_label with
      | none => Except.error RagError.keyError
      | some p0 => Except.ok (n0.text ++ f0 ++ "page nos: " ++ p0)

/-- RAGEngine.answer_question (src/rag_engine.py lines 91-141).  The
outcome of query_engine.query(question) is passed in as queryOutcome: an
error there models the external generation call raising, which the method
does not catch.  The index check (line 92) happens before the query. -/
def answer_question (index : Option Index) (queryOutcome : Except Unit Response)
    (question : String) : Except RagError AnswerResult :=
  match index with
  | none => Except.error RagError.notReady
  | some _ =>
    match queryOutcome with
    | Except.error _ => Except.error RagError.generationError
    | Except.ok response =>
      let final : Except RagError String :=
        match response.source_nodes with
        | [] => Except.ok response.response
        | n0 :: rest =>
          match citation_suffix n0 rest with
          | Except.error e => Except.error e
          | Except.ok suffix => Except.ok (response.response ++ checkFurther ++ suffix)
      match final with
      | Except.error e => Except.error e
      | Except.ok ans =>
        Except.ok { question := question
                    answer := ans
                    raw_answer := response.response
                    sources := response.source_nodes.map mkSourceDoc }

/-- RAGEngine.load_data (src/rag_engine.py lines 73-89).  The document
loader and the index builder are the two external steps; the assignment
self.index = ... happens only after the builder returned, so a failure in
either step leaves the state untouched and the raised exception
propagates. -/
def load_data (st : EngineState) (loader : Except Unit (List Document))
    (builder : List Document → Except Unit Index) : EngineState × Except Unit LoadResult :=
  match loader with
  | Except.error e => (st, Except.error e)
  | Except.ok documents =>
    match builder documents with
    | Except.error e => (st, Except.error e)
    | Except.ok idx =>
      ({ index := some idx },
       Except.ok { status := "success", document_count := documents.length })

/-- A JSON value looked up in a request body, as far as the handlers
inspect it: a string, or any non-string value.  Flask request.get_json
gives Python objects; the handlers only test truthiness and
isinstance(..., str), so every non-string value (number, null, list, dict,
boolean) lands in the same rejected branch at src/app.py line 48/96. -/
inductive JVal where
  | str (s : String)
  | nonString
deriving DecidableEq

/-- A parsed request body: none when get_json yields None (no JSON body),
otherwise the key-value pairs of the JSON object. -/
abbrev ReqBody := Option (List (String × JVal))

/-- Python truthiness of the parsed body, as tested by `not data`
(src/app.py lines 44 and 92): None and the empty dict are falsy. -/
def dataTruthy : ReqBody → Bool
  | none => false
  | some [] => false
  | some (_ :: _) => true

/-- Key lookup, modelling both the membership test and the subscript
data[key] that follows it. -/
def getField (body : ReqBody) (key : String) : Option JVal :=
  match body with
  | none => none
  | some kvs => kvs.lookup key

/-- An HTTP response as produced by the two modelled routes: a JSON error
payload carrying a status code and an error field, jsonify(result) of a
successful answer, or a plain-text body (the chat route returns bare
strings, with the implicit Flask status 200). -/
inductive ApiResponse where
  | errorJson (status : Nat) (message : String)
  | okJson (result : AnswerResult)
  | text (body : String)
deriving DecidableEq

/-- Lowercasing of one ASCII character, as Python str.lower acts on the
letters relevant here. -/
def lowerChar (c : Char) : Char :=
  if 65 ≤ c.toNat ∧ c.toNat ≤ 90 then Char.ofNat (c.toNat + 32) else c

/-- Python str.lower as used at src/app.py line 100, where the result is
only compared against the ASCII literal exit. -/
def pyLower (s : String) : String := String.mk (s.data.map lowerChar)

/-- The literal farewell returned by the chat route (src/app.py line 101). -/
def farewell : String := "Thank you for reaching out. Feel free to visit us again.. byee"

/-- Error message of src/app.py line 45 (quotes elided). -/
def missingQuestionMsg : String := "Missing question field in request"

/-- Error message of src/app.py line 49. -/
def invalidQuestionMsg : String := "Question must be a non-empty string"

/-- Error message of src/app.py line 93 (quotes elided). -/
def missingMessageMsg : String := "Missing message field in request"

/-- Error message of src/app.py line 97. -/
def invalidMessageMsg : String := "Message must be a non-empty string"

/-- Error message prefix of src/app.py lines 40 and 88 (the appended
str(e) is abstracted away). -/
def initFailMsg : String := "Failed to initialize RAG engine"

/-- Error message prefix of src/app.py line 56. -/
def processFailMsg : String := "Failed to process question"

/-- Error message prefix of src/app.py line 109. -/
def processMessageFailMsg : String := "Failed to process message"

/-- The external collaborators a request may consult: the document loader
(SimpleDirectoryReader.load_data), the index builder
(VectorStoreIndex.from_documents) and the query engine call for a given
question (retrieval plus generation). -/
structure Externals where
  loader : Except Unit (List Document)
  builder : List Document → Except Unit Index
  query : String → Except Unit Response

/-- Body of the /api/ask route after the lazy-initialization block
(src/app.py lines 42-56): body validation, then
rag_engine.answer_question, with exceptions mapped to a 500 payload. -/
def ask_after_init (st : EngineState) (ext : Externals) (body : ReqBody) :
    EngineState × ApiResponse :=
  if dataTruthy body then
    match getField body ("question") with
    | none => (st, ApiResponse.errorJson 400 missingQuestionMsg)
    | some JVal.nonString => (st, ApiResponse.errorJson 400 invalidQuestionMsg)
    | some (JVal.str s) =>
      if s = "" then (st, ApiResponse.errorJson 400 invalidQuestionMsg)
      else
        match answer_question st.index (ext.query s) s with
        | Except.ok result => (st, ApiResponse.okJson result)
        | Except.error _ => (st, ApiResponse.errorJson 500 processFailMsg)
  else (st, ApiResponse.errorJson 400 missingQuestionMsg)

/-- The /api/ask route (src/app.py lines 32-56).  The lazy build at lines
36-40 runs first, before the body is even read: when the index is absent a
failed load_data turns into a 500 response. -/
def ask_question (st : EngineState) (ext : Externals) (body : ReqBody) :
    EngineState × ApiResponse :=
  match st.index with
  | some _ => ask_after_init st ext body
  | none =>
    match load_data st ext.loader ext.builder with
    | (st2, Except.ok _) => ask_after_init st2 ext body
    | (st2, Except.error _) => (st2, ApiResponse.errorJson 500 initFailMsg)

/-- Body of the /api/chat route after the lazy-initialization block
(src/app.py lines 90-109): validation, the case-insensitive exit check,
then answer_question with only the answer field returned as plain text. -/
def chat_after_init (st : EngineState) (ext : Externals) (body : ReqBody) :
    EngineState × ApiResponse :=
  if dataTruthy body then
    match getField body ("message") with
    | none => (st, ApiResponse.errorJson 400 missingMessageMsg)
    | some JVal.nonString => (st, ApiResponse.errorJson 400 invalidMessageMsg)
    | some (JVal.str s) =>
      if s = "" then (st, ApiResponse.errorJson 400 invalidMessageMsg)
      else if pyLower s = "exit" then (st, ApiResponse.text farewell)
      else
        match answer_question st.index (ext.query s) s with
        | Except.ok result => (st, ApiResponse.text result.answer)
        | Except.error _ => (st, ApiResponse.errorJson 500 processMessageFailMsg)
  else (st, ApiResponse.errorJson 400 missingMessageMsg)

/-- The /api/chat route (src/app.py lines 71-109).  As in /api/ask the
lazy build runs before anything else, in particular before the exit
check. -/
def chat (st : EngineState) (ext : Externals) (body : ReqBody) :
    EngineState × ApiResponse :=
  match st.index with
  | some _ => chat_after_init st ext body
  | none =>
    match load_data st ext.loader ext.builder with
    | (st2, Except.ok _) => chat_after_init st2 ext body
    | (st2, Except.error _) => (st2, ApiResponse.errorJson 500 initFailMsg)

/-- The startup block of src/app.py lines 111-117: load_data is attempted
once from the initial state (index None); a failure only prints a warning,
so the process continues with whatever state the attempt left. -/
def startup_load (ext : Externals) : EngineState :=
  (load_data { index := none } ext.loader ext.builder).1

/-- Descending similarity order on scored nodes. -/
def scoreGE (a b : SourceNode) : Prop := b.score ≤ a.score

instance : DecidableRel scoreGE :=
  fun a b => inferInstanceAs (Decidable (b.score ≤ a.score))

instance : IsTotal SourceNode scoreGE :=
  ⟨fun a b => Or.symm (le_total a.score b.score)⟩

instance : IsTrans SourceNode scoreGE :=
  ⟨fun _ _ _ h1 h2 => le_trans h2 h1⟩

/-- Modelled from the spec: the similarity retrieval step performed inside
the external query engine (index.as_query_engine(... similarity_top_k=k)
followed by query), which is library code not present in this repository.
Spec section 4.2 step 3: retrieve the top-K chunks by similarity score,
descending, ties broken by original insertion order (stable); insertion
sort by descending score is such a stable ranking. -/
def retrieve (candidates : List SourceNode) (k : Nat) : List SourceNode :=
  (candidates.insertionSort scoreGE).take k

/-- The top-k value the source passes to as_query_engine
(src/rag_engine.py line 99). -/
def similarity_top_k : Nat := 2

/-- The query-engine call of src/rag_engine.py line 103, decomposed per
spec section 4.2: the candidates are the scored chunks of the index, the
retriever keeps the top similarity_top_k of them, and the generated text
comes from the external generation service (an error there propagates). -/
def query_engine_query (candidates : List SourceNode) (genOutcome : Except Unit String) :
    Except Unit Response :=
  match genOutcome with
  | Except.error e => Except.error e
  | Except.ok t => Except.ok { response := t, source_nodes := retrieve candidates similarity_top_k }

/-- Sample metadata carrying page label 3. -/
def metaA : Metadata := { file_name := some ("doc.pdf"), page_label := some ("3") }

/-- Sample metadata carrying page label 7. -/
def metaB : Metadata := { file_name := some ("doc.pdf"), page_label := some ("7") }

/-- Sample top node, score 5. -/
def nodeA : SourceNode := { text := "alpha", score := 5, metadata := metaA }

/-- Sample second node, score 3. -/
def nodeB : SourceNode := { text := "beta", score := 3, metadata := metaB }

/-- Sample low-scoring node, score 1. -/
def nodeC : SourceNode := { text := "gamma", score := 1, metadata := metaA }

/-- A 201-character text, above the 200-character excerpt limit. -/
def longText : String := String.mk (List.replicate 201 'a')

/-- Node whose text exceeds the excerpt limit. -/
def nodeLong : SourceNode := { text := longText, score := 1, metadata := metaA }

/-- Node whose metadata lacks the file_name key. -/
def nodeNoFile : SourceNode :=
  { text := "x", score := 1, metadata := { file_name := none, page_label := some ("9") } }

/-- Sample document. -/
def doc0 : Document := { text := "d" }

/-- Sample built index. -/
def idx0 : Index := { documents := [] }

/-- Engine state with an index present. -/
def st0 : EngineState := { index := some idx0 }

/-- Query response with zero retrieved nodes. -/
def resp0 : Response := { response := "ans", source_nodes := [] }

/-- Query response with one retrieved node. -/
def resp1 : Response := { response := "ans", source_nodes := [nodeA] }

/-- Query response with two retrieved nodes, page labels 3 and 7. -/
def resp2 : Response := { response := "ans", source_nodes := [nodeA, nodeB] }

/-- Query response whose single node has an over-long text. -/
def respLong : Response := { response := "ans", source_nodes := [nodeLong] }

/-- Query response whose single node lacks the file_name key. -/
def respNoFile : Response := { response := "ans", source_nodes := [nodeNoFile] }

/-- Externals whose build steps fail but whose query succeeds with zero
retrieved nodes. -/
def ext0 : Externals :=
  { loader := Except.error ()
    builder := fun _ => Except.error ()
    query := fun _ => Except.ok resp0 }

/-- Externals where every external call fails. -/
def extFail : Externals :=
  { loader := Except.error ()
    builder := fun _ => Except.error ()
    query := fun _ => Except.error () }

/-- Externals where loading and building succeed. -/
def extOk : Externals :=
  { loader := Except.ok [doc0]
    builder := fun ds => Except.ok { documents := ds }
    query := fun _ => Except.ok resp0 }

/-- Request body whose question is a single space: non-empty but
whitespace-only. -/
def bodyWS : ReqBody := some [("question", JVal.str (" "))]

/-- Helper: a successful answer_question call always returns the incoming
question, the raw generated text as raw_answer, and one sources entry per
retrieved node. -/
theorem answer_question_ok_shape {i : Index} {resp : Response} {q : String}
    {result : AnswerResult}
    (h : answer_question (some i) (Except.ok resp) q = Except.ok result) :
    result.question = q ∧ result.raw_answer = resp.response
    ∧ result.sources = resp.source_nodes.map mkSourceDoc := by
  cases hns : resp.source_nodes with
  | nil =>
    simp [answer_question, hns] at h
    subst h
    simp [hns]
  | cons n0 rest =>
    cases hc : citation_suffix n0 rest with
    | error e => simp [answer_question, hns, hc] at h
    | ok suf =>
      simp [answer_question, hns, hc] at h
      subst h
      simp [hns]

/-- Helper: the post-validation body of the ask route never mutates the
engine state. -/
theorem ask_after_init_fst (st : EngineState) (ext : Externals) (body : ReqBody) :
    (ask_after_init st ext body).1 = st := by
  unfold ask_after_init
  split
  · split
    · rfl
    · rfl
    · split
      · rfl
      · split <;> rfl
  · rfl

/-- Claim C2: answer_question fails with the not-ready error (the
ValueError of src/rag_engine.py line 93, NotReadyError in the spec
taxonomy) whenever the index is absent, whatever the external outcomes,
and fails with the generation error whenever the external
generation/query call errors while the index is present. -/
theorem C2_not_ready_and_generation_errors :
    (∀ (qo : Except Unit Response) (q : String),
       answer_question none qo q = Except.error RagError.notReady)
    ∧ (∀ (i : Index) (q : String),
       answer_question (some i) (Except.error ()) q = Except.error RagError.generationError) :=
  ⟨fun _ _ => rfl, fun _ _ => rfl⟩

/-- Claim C5: with zero retrieved chunks no citation suffix is appended,
the answer and raw_answer fields are the same string, and the sources
list is empty (src/rag_engine.py lines 118-119, 122-139). -/
theorem C5_zero_chunks (i : Index) (q : String) (resp : Response)
    (h : resp.source_nodes = []) :
    answer_question (some i) (Except.ok resp) q
      = Except.ok { question := q, answer := resp.response,
                    raw_answer := resp.response, sources := [] } := by
  simp [answer_question, h]

/-- Witness for C5 at a concrete zero-chunk response. -/
theorem C5_zero_chunks_witness :
    answer_question (some idx0) (Except.ok resp0) "q"
      = Except.ok { question := "q", answer := resp0.response,
                    raw_answer := resp0.response, sources := [] } :=
  C5_zero_chunks idx0 ("q") resp0 rfl

/-- Claim C3: with at least one retrieved chunk the citation suffix is the
top nodes text, then its file name, then the marker page nos: followed by
the top nodes page label, and exactly when a second chunk was retrieved a
comma-space and the second nodes page label; with exactly one chunk
nothing follows the first page label (src/rag_engine.py lines 106-117). -/
theorem C3_citation_pages (i : Index) (q : String) (resp : Response)
    (n0 : SourceNode) (rest : List SourceNode) (f0 p0 : String)
    (hns : resp.source_nodes = n0 :: rest)
    (hf : n0.metadata.file_name = some f0)
    (hp : n0.metadata.page_label = some p0) :
    (rest = [] →
      answer_question (some i) (Except.ok resp) q
        = Except.ok { question := q
                      answer := resp.response ++ checkFurther
                        ++ (n0.text ++ f0 ++ "page nos: " ++ p0)
                      raw_answer := resp.response
                      sources := resp.source_nodes.map mkSourceDoc })
    ∧ (∀ (n1 : SourceNode) (rest2 : List SourceNode) (p1 : String),
        rest = n1 :: rest2 → n1.metadata.page_label = some p1 →
        answer_question (some i) (Except.ok resp) q
          = Except.ok { question := q
                        answer := resp.response ++ checkFurther
                          ++ (n0.text ++ f0 ++ "page nos: " ++ p0 ++ ", " ++ p1)
                        raw_answer := resp.response
                        sources := resp.source_nodes.map mkSourceDoc }) := by
  constructor
  · intro hrest
    subst hrest
    simp [answer_question, hns, citation_suffix, hf, hp]
  · intro n1 rest2 p1 hrest hp1
    subst hrest
    simp [answer_question, hns, citation_suffix, hf, hp, hp1]

/-- Witness for C3: two retrieved chunks with page labels 3 and 7 produce
the suffix ending in page nos: 3, 7. -/
theorem C3_citation_pages_witness :
    answer_question (some idx0) (Except.ok resp2) "q"
      = Except.ok { question := "q"
                    answer := resp2.response ++ checkFurther
                      ++ (nodeA.text ++ "doc.pdf" ++ "page nos: " ++ "3" ++ ", " ++ "7")
                    raw_answer := resp2.response
                    sources := resp2.source_nodes.map mkSourceDoc } :=
  (C3_citation_pages idx0 ("q") resp2 nodeA [nodeB] ("doc.pdf") ("3")
    rfl rfl rfl).2 nodeB [] ("7") rfl rfl

/-- Claim C4: in the sources output each entry keeps the nodes text
unmodified when it has at most 200 characters, and is exactly the first
200 characters followed by the ellipsis marker when longer
(src/rag_engine.py line 127). -/
theorem C4_excerpt_truncation (i : Index) (q : String) (resp : Response)
    (result : AnswerResult)
    (h : answer_question (some i) (Except.ok resp) q = Except.ok result) :
    result.sources = resp.source_nodes.map mkSourceDoc
    ∧ ∀ n ∈ resp.source_nodes,
        (n.text.length ≤ 200 → (mkSourceDoc n).text = n.text)
        ∧ (200 < n.text.length → (mkSourceDoc n).text = n.text.take 200 ++ "...") := by
  refine ⟨(answer_question_ok_shape h).2.2, ?_⟩
  intro n _hn
  refine ⟨fun hle => ?_, fun hgt => ?_⟩
  · simp [mkSourceDoc, excerpt, Nat.not_lt.mpr hle]
  · simp [mkSourceDoc, excerpt, hgt]

/-- Witness for C4 at a response whose single node carries a 201-character
text. -/
theorem C4_excerpt_truncation_witness :
    (answer_question (some idx0) (Except.ok respLong) "q").isOk = true
    ∧ ∀ n ∈ respLong.source_nodes,
        (n.text.length ≤ 200 → (mkSourceDoc n).text = n.text)
        ∧ (200 < n.text.length → (mkSourceDoc n).text = n.text.take 200 ++ "...") :=
  ⟨rfl,
   (C4_excerpt_truncation idx0 ("q") respLong
     { question := "q"
       answer := respLong.response ++ checkFurther
         ++ (nodeLong.text ++ "doc.pdf" ++ "page nos: " ++ "3")
       raw_answer := respLong.response
       sources := respLong.source_nodes.map mkSourceDoc }
     rfl).2⟩

/-- Claim C10: the citation code reads file_name and page_label of the top
node (and page_label of the second node when present) by direct dict
indexing, so answer_question raises KeyError when such a key is missing,
even though the sources entries built in the same call default missing
keys to Unknown; when every retrieved nodes metadata carries both keys
the call is total (src/rag_engine.py lines 106-115 versus 122-131). -/
theorem C10_metadata_direct_indexing :
    (∀ (i : Index) (q : String) (resp : Response) (n0 : SourceNode)
       (rest : List SourceNode),
       resp.source_nodes = n0 :: rest → n0.metadata.file_name = none →
       answer_question (some i) (Except.ok resp) q = Except.error RagError.keyError)
    ∧ (∀ (i : Index) (q : String) (resp : Response) (n0 : SourceNode)
       (rest : List SourceNode),
       resp.source_nodes = n0 :: rest → n0.metadata.page_label = none →
       answer_question (some i) (Except.ok resp) q = Except.error RagError.keyError)
    ∧ (∀ (i : Index) (q : String) (resp : Response) (n0 n1 : SourceNode)
       (rest : List SourceNode),
       resp.source_nodes = n0 :: n1 :: rest → n1.metadata.page_label = none →
       answer_question (some i) (Except.ok resp) q = Except.error RagError.keyError)
    ∧ (∀ n : SourceNode, n.metadata.file_name = none →
       (mkSourceDoc n).file_name = "Unknown")
    ∧ (∀ n : SourceNode, n.metadata.page_label = none →
       (mkSourceDoc n).page_label = "Unknown")
    ∧ (∀ (i : Index) (q : String) (resp : Response),
       (∀ n ∈ resp.source_nodes, n.metadata.file_name ≠ none
          ∧ n.metadata.page_label ≠ none) →
       ∃ result, answer_question (some i) (Except.ok resp) q = Except.ok result) := by
  refine ⟨?_, ?_, ?_, ?_, ?_, ?_⟩
  · intro i q resp n0 rest hns hf
    cases rest <;> simp [answer_question, hns, citation_suffix, hf]
  · intro i q resp n0 rest hns hp
    cases rest <;> cases hf : n0.metadata.file_name
      <;> simp [answer_question, hns, citation_suffix, hf, hp]
  · intro i q resp n0 n1 rest hns hp1
    cases hf : n0.metadata.file_name <;> cases hp : n0.metadata.page_label
      <;> simp [answer_question, hns, citation_suffix, hf, hp, hp1]
  · intro n h
    simp [mkSourceDoc, h]
  · intro n h
    simp [mkSourceDoc, h]
  · intro i q resp hkeys
    cases hns : resp.source_nodes with
    | nil => exact ⟨_, by simp [answer_question, hns]; rfl⟩
    | cons n0 rest =>
      have h0 := hkeys n0 (by rw [hns]; exact List.mem_cons_self _ _)
      obtain ⟨f0, hf⟩ := Option.ne_none_iff_exists.mp h0.1
      obtain ⟨p0, hp⟩ := Option.ne_none_iff_exists.mp h0.2
      cases rest with
      | nil =>
        exact ⟨_, by simp [answer_question, hns, citation_suffix, hf.symm, hp.symm]; rfl⟩
      | cons n1 rest2 =>
        have h1 := hkeys n1 (by rw [hns]; exact List.mem_cons_of_mem _ (List.mem_cons_self _ _))
        obtain ⟨p1, hp1⟩ := Option.ne_none_iff_exists.mp h1.2
        exact ⟨_, by simp [answer_question, hns, citation_suffix, hf.symm, hp.symm, hp1.symm]; rfl⟩

/-- Witness for C10: a single retrieved node without the file_name key
makes answer_question raise KeyError, while the same nodes sources entry
would have shown Unknown. -/
theorem C10_metadata_direct_indexing_witness :
    answer_question (some idx0) (Except.ok respNoFile) "q" = Except.error RagError.keyError
    ∧ (mkSourceDoc nodeNoFile).file_name = "Unknown" :=
  ⟨C10_metadata_direct_indexing.1 idx0 ("q") respNoFile nodeNoFile [] rfl rfl,
   C10_metadata_direct_indexing.2.2.2.1 nodeNoFile rfl⟩

/-- Claim C1, as amended: a question value that is the empty string or not
a string is rejected by the ask route with the 400 invalid-question
response, before answer_question or the generation service is consulted
(the right-hand sides below never mention ext.query, and hold for every
ext), both when the index is already present and when the lazy build
succeeds first; and a non-empty question - whitespace-only included -
passes validation and is handed to answer_question. -/
theorem C1_empty_question_rejected :
    (∀ (st : EngineState) (ext : Externals) (kvs : List (String × JVal)) (i : Index),
       st.index = some i → kvs.lookup ("question") = some (JVal.str ("")) →
       ask_question st ext (some kvs) = (st, ApiResponse.errorJson 400 invalidQuestionMsg))
    ∧ (∀ (st : EngineState) (ext : Externals) (kvs : List (String × JVal)) (i : Index),
       st.index = some i → kvs.lookup ("question") = some JVal.nonString →
       ask_question st ext (some kvs) = (st, ApiResponse.errorJson 400 invalidQuestionMsg))
    ∧ (∀ (ext : Externals) (kvs : List (String × JVal)) (docs : List Document) (idx : Index),
       ext.loader = Except.ok docs → ext.builder docs = Except.ok idx →
       kvs.lookup ("question") = some (JVal.str ("")) →
       ask_question { index := none } ext (some kvs)
         = ({ index := some idx }, ApiResponse.errorJson 400 invalidQuestionMsg))
    ∧ (∀ (st : EngineState) (ext : Externals) (kvs : List (String × JVal))
       (i : Index) (s : String),
       st.index = some i → kvs.lookup ("question") = some (JVal.str s) → s ≠ "" →
       ask_question st ext (some kvs)
         = (st, match answer_question st.index (ext.query s) s with
                | Except.ok r => ApiResponse.okJson r
                | Except.error _ => ApiResponse.errorJson 500 processFailMsg)) := by
  refine ⟨?_, ?_, ?_, ?_⟩
  · intro st ext kvs i hidx hlook
    cases kvs with
    | nil => simp [List.lookup] at hlook
    | cons hd tl =>
      simp [ask_question, hidx, ask_after_init, dataTruthy, getField, hlook]
  · intro st ext kvs i hidx hlook
    cases kvs with
    | nil => simp [List.lookup] at hlook
    | cons hd tl =>
      simp [ask_question, hidx, ask_after_init, dataTruthy, getField, hlook]
  · intro ext kvs docs idx hl hb hlook
    cases kvs with
    | nil => simp [List.lookup] at hlook
    | cons hd tl =>
      simp [ask_question, load_data, hl, hb, ask_after_init, dataTruthy, getField, hlook]
  · intro st ext kvs i s hidx hlook hne
    cases kvs with
    | nil => simp [List.lookup] at hlook
    | cons hd tl =>
      simp [ask_question, hidx, ask_after_init, dataTruthy, getField, hlook, hne]
      cases answer_question (some i) (ext.query s) s <;> rfl

/-- Counterexample for claim C1 as stated: the single-space question is
whitespace-only yet sails through validation; with the index present and
the pipeline succeeding the route returns a 200 success payload, so no
invalid-question failure happens and the generation pipeline does run. -/
theorem C1_counterexample :
    ask_question st0 ext0 bodyWS
      = (st0, ApiResponse.okJson
          { question := " ", answer := "ans", raw_answer := "ans", sources := [] })
    ∧ ∀ (status : Nat) (msg : String),
        (ask_question st0 ext0 bodyWS).2 ≠ ApiResponse.errorJson status msg := by
  refine ⟨by decide, ?_⟩
  intro status msg h
  have h2 : (ask_question st0 ext0 bodyWS).2
      = ApiResponse.okJson
          { question := " ", answer := "ans", raw_answer := "ans", sources := [] } := by decide
  rw [h2] at h
  cases h

/-- Witness for the amended claim C1 at concrete inputs: an empty-string
question is rejected with 400 whether the index was present already or the
lazy build just succeeded. -/
theorem C1_empty_question_rejected_witness :
    ask_question st0 ext0 (some [("question", JVal.str (""))])
      = (st0, ApiResponse.errorJson 400 invalidQuestionMsg)
    ∧ ask_question { index := none } extOk (some [("question", JVal.str (""))])
      = ({ index := some { documents := [doc0] } },
         ApiResponse.errorJson 400 invalidQuestionMsg) :=
  ⟨C1_empty_question_rejected.1 st0 ext0 [("question", JVal.str (""))] idx0 rfl rfl,
   C1_empty_question_rejected.2.2.1 extOk [("question", JVal.str (""))] [doc0]
     { documents := [doc0] } rfl rfl rfl⟩

/-- Claim C7, as amended: provided the index is already present or the lazy
build succeeds, every ask request with an absent body, a body without the
question key, or an empty or non-string question value gets the 400
response with an error field, and neither answer_question nor the
generation service is consulted (the right-hand sides hold for every ext);
when the index is absent and the lazy build fails the route answers 500
instead. -/
theorem C7_missing_question_400 :
    (∀ (st : EngineState) (ext : Externals) (i : Index), st.index = some i →
       ask_question st ext none = (st, ApiResponse.errorJson 400 missingQuestionMsg))
    ∧ (∀ (st : EngineState) (ext : Externals) (i : Index), st.index = some i →
       ask_question st ext (some []) = (st, ApiResponse.errorJson 400 missingQuestionMsg))
    ∧ (∀ (st : EngineState) (ext : Externals) (i : Index)
       (kvs : List (String × JVal)),
       st.index = some i → kvs.lookup ("question") = none →
       ask_question st ext (some kvs) = (st, ApiResponse.errorJson 400 missingQuestionMsg))
    ∧ (∀ (st : EngineState) (ext : Externals) (i : Index)
       (kvs : List (String × JVal)),
       st.index = some i → kvs.lookup ("question") = some JVal.nonString →
       ask_question st ext (some kvs) = (st, ApiResponse.errorJson 400 invalidQuestionMsg))
    ∧ (∀ (st : EngineState) (ext : Externals) (i : Index)
       (kvs : List (String × JVal)),
       st.index = some i → kvs.lookup ("question") = some (JVal.str ("")) →
       ask_question st ext (some kvs) = (st, ApiResponse.errorJson 400 invalidQuestionMsg))
    ∧ (∀ (ext : Externals) (docs : List Document) (idx : Index),
       ext.loader = Except.ok docs → ext.builder docs = Except.ok idx →
       ask_question { index := none } ext none
         = ({ index := some idx }, ApiResponse.errorJson 400 missingQuestionMsg)) := by
  refine ⟨?_, ?_, ?_, ?_, ?_, ?_⟩
  · intro st ext i hidx
    simp [ask_question, hidx, ask_after_init, dataTruthy]
  · intro st ext i hidx
    simp [ask_question, hidx, ask_after_init, dataTruthy]
  · intro st ext i kvs hidx hlook
    cases kvs with
    | nil => simp [ask_question, hidx, ask_after_init, dataTruthy]
    | cons hd tl =>
      simp [ask_question, hidx, ask_after_init, dataTruthy, getField, hlook]
  · intro st ext i kvs hidx hlook
    cases kvs with
    | nil => simp [List.lookup] at hlook
    | cons hd tl =>
      simp [ask_question, hidx, ask_after_init, dataTruthy, getField, hlook]
  · intro st ext i kvs hidx hlook
    cases kvs with
    | nil => simp [List.lookup] at hlook
    | cons hd tl =>
      simp [ask_question, hidx, ask_after_init, dataTruthy, getField, hlook]
  · intro ext docs idx hl hb
    simp [ask_question, load_data, hl, hb, ask_after_init, dataTruthy]

/-- Counterexample for claim C7 as stated: with the index absent and the
lazy build failing, a request with no JSON body at all is answered with
status 500, not 400 - the build runs and fails before the body is read. -/
theorem C7_counterexample :
    ask_question { index := none } extFail none
      = ({ index := none }, ApiResponse.errorJson 500 initFailMsg)
    ∧ ∀ msg : String,
        (ask_question { index := none } extFail none).2 ≠ ApiResponse.errorJson 400 msg := by
  refine ⟨rfl, ?_⟩
  intro msg h
  have h2 : (ask_question { index := none } extFail none).2
      = ApiResponse.errorJson 500 initFailMsg := rfl
  rw [h2] at h
  exact absurd (ApiResponse.errorJson.inj h).1 (by decide)

/-- Witness for the amended claim C7 at concrete inputs: a missing body is
rejected with 400 when the index is present, and also when the lazy build
succeeds first. -/
theorem C7_missing_question_400_witness :
    ask_question st0 ext0 none = (st0, ApiResponse.errorJson 400 missingQuestionMsg)
    ∧ ask_question { index := none } extOk none
      = ({ index := some { documents := [doc0] } },
         ApiResponse.errorJson 400 missingQuestionMsg) :=
  ⟨C7_missing_question_400.1 st0 ext0 idx0 rfl,
   C7_missing_question_400.2.2.2.2.2 extOk [doc0] { documents := [doc0] } rfl rfl⟩

/-- Claim C6, as amended: provided the index is already present or the
lazy build succeeds, a chat message that case-insensitively equals exit is
answered with the literal farewell string as plain text, and
answer_question and the generation service are never consulted (the
right-hand sides hold for every ext); any other valid message whose
answer_question call succeeds is answered with the plain-text answer
field, not a JSON payload.  When the index is absent the lazy build runs
before the exit check, and its failure yields a 500 error instead. -/
theorem C6_exit_bypass :
    (∀ (st : EngineState) (ext : Externals) (kvs : List (String × JVal))
       (i : Index) (s : String),
       st.index = some i → kvs.lookup ("message") = some (JVal.str s) →
       s ≠ "" → pyLower s = "exit" →
       chat st ext (some kvs) = (st, ApiResponse.text farewell))
    ∧ (∀ (ext : Externals) (kvs : List (String × JVal)) (docs : List Document)
       (idx : Index) (s : String),
       ext.loader = Except.ok docs → ext.builder docs = Except.ok idx →
       kvs.lookup ("message") = some (JVal.str s) → s ≠ "" → pyLower s = "exit" →
       chat { index := none } ext (some kvs)
         = ({ index := some idx }, ApiResponse.text farewell))
    ∧ (∀ (st : EngineState) (ext : Externals) (kvs : List (String × JVal))
       (i : Index) (s : String) (r : AnswerResult),
       st.index = some i → kvs.lookup ("message") = some (JVal.str s) →
       s ≠ "" → pyLower s ≠ "exit" →
       answer_question st.index (ext.query s) s = Except.ok r →
       chat st ext (some kvs) = (st, ApiResponse.text r.answer)) := by
  refine ⟨?_, ?_, ?_⟩
  · intro st ext kvs i s hidx hlook hne hlow
    cases kvs with
    | nil => simp [List.lookup] at hlook
    | cons hd tl =>
      simp [chat, hidx, chat_after_init, dataTruthy, getField, hlook, hne, hlow]
  · intro ext kvs docs idx s hl hb hlook hne hlow
    cases kvs with
    | nil => simp [List.lookup] at hlook
    | cons hd tl =>
      simp [chat, load_data, hl, hb, chat_after_init, dataTruthy, getField, hlook, hne, hlow]
  · intro st ext kvs i s r hidx hlook hne hlow hans
    cases kvs with
    | nil => simp [List.lookup] at hlook
    | cons hd tl =>
      rw [hidx] at hans
      simp [chat, hidx, chat_after_init, dataTruthy, getField, hlook, hne, hlow, hans]

/-- Counterexample for claim C6 as stated: with the index absent and the
lazy build failing, the chat request with message exit is answered with a
500 JSON error, not the farewell string - the initialization block runs
(consulting external services) before the exit check is ever reached. -/
theorem C6_counterexample :
    chat { index := none } extFail (some [("message", JVal.str ("exit"))])
      = ({ index := none }, ApiResponse.errorJson 500 initFailMsg)
    ∧ (chat { index := none } extFail (some [("message", JVal.str ("exit"))])).2
        ≠ ApiResponse.text farewell := by
  exact ⟨rfl, by decide⟩

/-- Witness for the amended claim C6 at concrete inputs: the mixed-case
message Exit yields the farewell verbatim with the index present, and a
non-exit message yields the plain-text answer field. -/
theorem C6_exit_bypass_witness :
    chat st0 ext0 (some [("message", JVal.str ("Exit"))])
      = (st0, ApiResponse.text farewell)
    ∧ chat st0 ext0 (some [("message", JVal.str ("hello"))])
      = (st0, ApiResponse.text ("ans")) :=
  ⟨C6_exit_bypass.1 st0 ext0 [("message", JVal.str ("Exit"))] idx0 ("Exit")
     rfl rfl (by decide) (by decide),
   C6_exit_bypass.2.2 st0 ext0 [("message", JVal.str ("hello"))] idx0 ("hello")
     { question := "hello", answer := "ans", raw_answer := "ans", sources := [] }
     rfl rfl (by decide) (by decide) rfl⟩

/-- Claim C8: the answer pipeline retrieves the top-K candidate chunks by
similarity score, K being the similarity_top_k parameter the source sets
to 2 (src/rag_engine.py line 99).  The retrieved list is sorted by score
descending, has min K n elements, and together with the dropped
candidates is a permutation of all candidates, every retrieved score
dominating every dropped score.  Retrieval itself is the spec-modelled
external ranking step (see retrieve). -/
theorem C8_topk_retrieval :
    similarity_top_k = 2
    ∧ (∀ (c : List SourceNode) (g : String),
        query_engine_query c (Except.ok g)
          = Except.ok { response := g, source_nodes := retrieve c similarity_top_k })
    ∧ (∀ (c : List SourceNode) (k : Nat), List.Sorted scoreGE (retrieve c k))
    ∧ (∀ (c : List SourceNode) (k : Nat), (retrieve c k).length = min k c.length)
    ∧ (∀ (c : List SourceNode) (k : Nat),
        (retrieve c k ++ (c.insertionSort scoreGE).drop k).Perm c)
    ∧ (∀ (c : List SourceNode) (k : Nat),
        ∀ x ∈ retrieve c k, ∀ y ∈ (c.insertionSort scoreGE).drop k,
          y.score ≤ x.score) := by
  refine ⟨rfl, fun _ _ => rfl, ?_, ?_, ?_, ?_⟩
  · intro c k
    exact List.Pairwise.sublist (List.take_sublist k _) (List.sorted_insertionSort scoreGE c)
  · intro c k
    rw [retrieve, List.length_take, List.length_insertionSort]
  · intro c k
    rw [retrieve, List.take_append_drop]
    exact List.perm_insertionSort scoreGE c
  · intro c k x hx y hy
    exact (List.sorted_insertionSort scoreGE c).rel_of_mem_take_of_mem_drop hx hy

/-- Witness for C8 on three concrete candidates with scores 1, 5, 3: the
two retained nodes are the two highest scorers and dominate the dropped
one. -/
theorem C8_topk_retrieval_witness :
    nodeA ∈ retrieve [nodeC, nodeA, nodeB] 2
    ∧ nodeC ∈ (([nodeC, nodeA, nodeB] : List SourceNode).insertionSort scoreGE).drop 2
    ∧ nodeC.score ≤ nodeA.score :=
  ⟨by decide, by decide,
   C8_topk_retrieval.2.2.2.2.2 [nodeC, nodeA, nodeB] 2 nodeA (by decide) nodeC (by decide)⟩

/-- Claim C9: load_data is atomic with respect to the published index: a
loader or builder failure leaves the engine state exactly as it was, and
in every case the final state is either the old state or carries the
fully built index - never a mixture.  A failed startup build leaves the
index absent without crashing, and a request that finds the index absent
performs the lazy build itself: on success the request leaves the built
index published, on failure it reports the 500 initialization error. -/
theorem C9_atomic_index_build :
    (∀ (st : EngineState) (b : List Document → Except Unit Index) (e : Unit),
       load_data st (Except.error e) b = (st, Except.error e))
    ∧ (∀ (st : EngineState) (docs : List Document)
       (b : List Document → Except Unit Index) (e : Unit),
       b docs = Except.error e →
       load_data st (Except.ok docs) b = (st, Except.error e))
    ∧ (∀ (st : EngineState) (l : Except Unit (List Document))
       (b : List Document → Except Unit Index),
       (load_data st l b).1 = st
       ∨ ∃ docs idx, l = Except.ok docs ∧ b docs = Except.ok idx
           ∧ (load_data st l b).1 = { index := some idx })
    ∧ (∀ ext : Externals, ext.loader = Except.error () →
       startup_load ext = { index := none })
    ∧ (∀ (ext : Externals) (docs : List Document),
       ext.loader = Except.ok docs → ext.builder docs = Except.error () →
       startup_load ext = { index := none })
    ∧ (∀ (ext : Externals) (body : ReqBody) (docs : List Document) (idx : Index),
       ext.loader = Except.ok docs → ext.builder docs = Except.ok idx →
       (ask_question { index := none } ext body).1 = { index := some idx })
    ∧ (∀ (ext : Externals) (body : ReqBody), ext.loader = Except.error () →
       ask_question { index := none } ext body
         = ({ index := none }, ApiResponse.errorJson 500 initFailMsg)) := by
  refine ⟨?_, ?_, ?_, ?_, ?_, ?_, ?_⟩
  · intro st b e
    rfl
  · intro st docs b e hb
    simp [load_data, hb]
  · intro st l b
    cases l with
    | error e => exact Or.inl rfl
    | ok docs =>
      cases hb : b docs with
      | error e => exact Or.inl (by simp [load_data, hb])
      | ok idx => exact Or.inr ⟨docs, idx, rfl, hb, by simp [load_data, hb]⟩
  · intro ext hl
    simp [startup_load, load_data, hl]
  · intro ext docs hl hb
    simp [startup_load, load_data, hl, hb]
  · intro ext body docs idx hl hb
    simp [ask_question, load_data, hl, hb, ask_after_init_fst]
  · intro ext body hl
    simp [ask_question, load_data, hl]

/-- Witness for C9 at concrete inputs: a failing loader leaves the
existing state untouched, a failed startup leaves the index absent, and a
request that triggers a successful lazy build publishes the built
index. -/
theorem C9_atomic_index_build_witness :
    load_data st0 (Except.error ()) extOk.builder = (st0, Except.error ())
    ∧ startup_load extFail = { index := none }
    ∧ (ask_question { index := none } extOk none).1
        = { index := some { documents := [doc0] } } :=
  ⟨C9_atomic_index_build.1 st0 extOk.builder (),
   C9_atomic_index_build.2.2.2.1 extFail rfl,
   C9_atomic_index_build.2.2.2.2.2.1 extOk none [doc0] { documents := [doc0] } rfl rfl⟩

end RagApp
